import Mathlib

/-!
# Verification of the Meri_AI campus-assistant core

A shallow embedding, in Lean 4, of the decision-relevant logic of the
Meri_AI server (`server/app/...`): the workflow branching functions, the
intent classifier's validation envelope, the RAG generator's fallback
logic, the walking-time estimators with their urgency adjustment, the OSM
hybrid routing decision, the tiered POI resolution, the response composer,
and the nearby-service search.

Conventions of the embedding:
* Python floats are modelled as rationals (`ℚ`); `int(x)` is `pyInt`
  (truncation toward zero), `round(x, k)` is `pyRound2`/`pyRound1`
  (round-half-up at ties — no call site in the development hits a tie).
* Transcendental functions from `math` (`sin`, `cos`, `asin`, `atan2`,
  `sqrt`) and the constant `pi` are abstracted into a `MathOps` record so
  that every definition stays executable; theorems that need identities
  such as `sin 0 = 0` take them as hypotheses.
* External libraries (networkx shortest paths, osmnx nearest-node lookup,
  geopy geodesic distance, the Postgres store, the LLM) are modelled as
  explicit function parameters or outcome values, exactly at the call
  boundary where the source invokes them.
* Python `try/except` blocks are modelled by `Option`/`Except` results:
  a caught exception becomes the value the handler returns.
-/

/-! ## Python numeric primitives -/

/-- Python `int(x)` for a float `x`: truncation toward zero. -/
def pyInt (x : ℚ) : ℤ := if 0 ≤ x then ⌊x⌋ else -⌊-x⌋

/-- Python `round(y)` to an integer (ties rounded up; no call site in this
development evaluates it at a tie). -/
def pyRound (x : ℚ) : ℤ := ⌊x + 1/2⌋

/-- Python `round(x, 2)`. -/
def pyRound2 (x : ℚ) : ℚ := (pyRound (x * 100) : ℚ) / 100

/-- Python `round(x, 1)`. -/
def pyRound1 (x : ℚ) : ℚ := (pyRound (x * 10) : ℚ) / 10

/-- Python `a % b` on floats for `b > 0` (sign follows the divisor). -/
def pyFMod (a b : ℚ) : ℚ := a - b * ⌊a / b⌋

theorem pyInt_of_nonneg {x : ℚ} (h : 0 ≤ x) : pyInt x = ⌊x⌋ := if_pos h

/-! ## Python string primitives (over the underlying character lists, so
that everything reduces in the kernel) -/

/-- Python `str.lower()` (ASCII; the source data is ASCII). -/
def pyLower (s : String) : String := ⟨s.data.map Char.toLower⟩

/-- Is `n` a prefix of the second list? -/
def isPrefixChars : List Char → List Char → Bool
  | [], _ => true
  | _ :: _, [] => false
  | a :: as, b :: bs => a == b && isPrefixChars as bs

/-- Is `n` a contiguous sublist of the second list? -/
def isInfixChars : List Char → List Char → Bool
  | n, [] => n.isEmpty
  | n, b :: bs => isPrefixChars n (b :: bs) || isInfixChars n bs

/-- Python `needle in hay` on strings: substring containment. -/
def pyContains (needle hay : String) : Bool := isInfixChars needle.data hay.data

/-- Split a character list at a separator character. -/
def splitChars (sep : Char) (l : List Char) : List (List Char) :=
  l.foldr (fun c acc =>
    if c = sep then [] :: acc
    else match acc with
      | [] => [[c]]
      | h :: t => (c :: h) :: t) [[]]

/-- Python `str.split()` with no argument: split on spaces, drop empty
pieces (the source's location names do not contain other whitespace). -/
def pySplit (s : String) : List String :=
  ((splitChars ' ' s.data).map fun cs => (⟨cs⟩ : String)).filter (· ≠ "")

/-! ## The abstracted `math` module -/

/-- The transcendental backend used by the Python `math` module calls.
Abstracting it keeps the embedding executable; the formulas below are
literal translations of the source. -/
structure MathOps where
  sin : ℚ → ℚ
  cos : ℚ → ℚ
  asin : ℚ → ℚ
  atan2 : ℚ → ℚ → ℚ
  sqrt : ℚ → ℚ
  pi : ℚ

/-- `math.radians(d)`. -/
def MathOps.radians (ops : MathOps) (d : ℚ) : ℚ := d * ops.pi / 180

/-- `math.degrees(x)`. -/
def MathOps.degrees (ops : MathOps) (x : ℚ) : ℚ := x * 180 / ops.pi

/-- `haversine_distance` from `app/graph/nodes/geo_helpers.py` (the same
formula appears as `RoutingService._haversine_distance`): great-circle
distance in kilometres, Earth radius 6371 km. -/
def haversine_distance (ops : MathOps) (lat1 lon1 lat2 lon2 : ℚ) : ℚ :=
  let R : ℚ := 6371
  let lat1_rad := ops.radians lat1
  let lat2_rad := ops.radians lat2
  let delta_lat := ops.radians (lat2 - lat1)
  let delta_lon := ops.radians (lon2 - lon1)
  let a := ops.sin (delta_lat / 2) ^ 2 +
    ops.cos lat1_rad * ops.cos lat2_rad * ops.sin (delta_lon / 2) ^ 2
  let c := 2 * ops.asin (ops.sqrt a)
  R * c

/-- `calculate_bearing` from `geo_helpers.py`: bearing in degrees, 0–360. -/
def calculate_bearing (ops : MathOps) (lat1 lon1 lat2 lon2 : ℚ) : ℚ :=
  let lat1_rad := ops.radians lat1
  let lat2_rad := ops.radians lat2
  let delta_lon := ops.radians (lon2 - lon1)
  let x := ops.sin delta_lon * ops.cos lat2_rad
  let y := ops.cos lat1_rad * ops.sin lat2_rad -
    ops.sin lat1_rad * ops.cos lat2_rad * ops.cos delta_lon
  let bearing := ops.atan2 x y
  pyFMod (ops.degrees bearing + 360) 360

/-- `bearing_to_direction` from `geo_helpers.py`: compass direction from a
bearing; Python's `int(...) % 8` is `Int.emod` (non-negative for the
positive modulus 8). -/
def bearing_to_direction (bearing : ℚ) : String :=
  let directions := ["north", "northeast", "east", "southeast",
    "south", "southwest", "west", "northwest"]
  let index := (pyInt ((bearing + 45/2) / 45)) % 8
  directions.getD index.toNat "north"

/-! ## C1: routing decision and workflow edges -/

/-- `routing_decision_node` from `app/graph/nodes/routing_decision.py`.
The state's `intent` field is an optional string
(`state.get("intent", "UNIVERSITY_INFO")` supplies the default). -/
def routing_decision_node (intent? : Option String) : String :=
  let intent := intent?.getD "UNIVERSITY_INFO"
  if intent = "NAVIGATION" then "geo"
  else if intent = "NEARBY_SERVICE" then "geo"
  else if intent = "UNIVERSITY_INFO" then "rag"
  else if intent = "MIXED" then "both"
  else "rag"

/-- The conditional-edge table attached to `intent_classifier` in
`AstuRouteGraph._build_graph` (`app/graph/workflow.py`). -/
def intent_classifier_edges (tag : String) : Option String :=
  if tag = "geo" then some "geo_reasoning"
  else if tag = "rag" then some "rag_retriever"
  else if tag = "both" then some "rag_retriever"
  else none

/-- The branch closure attached after `rag_generator` in
`AstuRouteGraph._build_graph`:
`lambda state: "geo" if state.get("intent") == "MIXED" else "compose"`. -/
def rag_generator_branch (intent? : Option String) : String :=
  if intent? = some "MIXED" then "geo" else "compose"

/-- The conditional-edge table attached to `rag_generator`. -/
def rag_generator_edges (tag : String) : Option String :=
  if tag = "geo" then some "geo_reasoning"
  else if tag = "compose" then some "response_composer"
  else none

/-! ## C9: intent classifier (`app/graph/nodes/intent_classifier.py`)

The LLM call, the JSON parse and the Pydantic validation all sit inside
one `try` block whose `except` returns the `UNIVERSITY_INFO` default.  We
model the LLM/parse outcome as a value: `failure` is any exception raised
before validation (service error or `json.loads` error), and `json f`
is a successfully parsed object whose `"intent"` entry is `f` (`none`
when the key is missing or not a string). -/

/-- The four schema-valid intents (`IntentClassification.intent`,
a Pydantic `Literal` in `app/graph/state.py`). -/
inductive Intent
  | NAVIGATION | NEARBY_SERVICE | UNIVERSITY_INFO | MIXED
deriving DecidableEq

def Intent.asString : Intent → String
  | .NAVIGATION => "NAVIGATION"
  | .NEARBY_SERVICE => "NEARBY_SERVICE"
  | .UNIVERSITY_INFO => "UNIVERSITY_INFO"
  | .MIXED => "MIXED"

/-- Outcome of the generation call plus JSON parse, as seen by the
validation step. -/
inductive LLMOutcome
  | failure (msg : String)
  | json (intentField : Option String)

/-- The Pydantic validation `IntentClassification(**result)`: accepts the
object only when its `intent` field is one of the four literals. -/
def validateIntent : Option String → Option Intent
  | none => none
  | some s =>
    if s = "NAVIGATION" then some .NAVIGATION
    else if s = "NEARBY_SERVICE" then some .NEARBY_SERVICE
    else if s = "UNIVERSITY_INFO" then some .UNIVERSITY_INFO
    else if s = "MIXED" then some .MIXED
    else none

/-- The patch returned by `intent_classifier_node` (the fields it
computes; `reasoning_stream` omitted as presentation-only). -/
structure IntentPatch where
  intent : String
  confidence : String
  error : Option String
deriving DecidableEq

/-- `intent_classifier_node`: validated intent with high confidence on
success; `UNIVERSITY_INFO` with low confidence on any failure. -/
def intent_classifier_node (o : LLMOutcome) : IntentPatch :=
  match o with
  | .failure msg => ⟨"UNIVERSITY_INFO", "low", some msg⟩
  | .json f =>
    match validateIntent f with
    | some i => ⟨i.asString, "high", none⟩
    | none => ⟨"UNIVERSITY_INFO", "low", some "validation error"⟩

/-! ## C2: RAG generator (`app/graph/nodes/rag_generator.py`) -/

/-- A retrieved document as stored in `state["retrieved_documents"]`. -/
structure RetrievedDoc where
  source_id : String
  content : String
deriving DecidableEq

/-- Confidence literal of the Pydantic `RAGResponse` schema. -/
inductive RagConf | high | medium | low
deriving DecidableEq

def RagConf.asString : RagConf → String
  | .high => "high" | .medium => "medium" | .low => "low"

/-- A schema-validated `RAGResponse` (`app/graph/state.py`). -/
structure RAGResponseV where
  answer : String
  sources_used : List String
  confidence : RagConf

/-- Outcome of the generation call, JSON parse and schema validation in
`rag_generator_node`'s `try` block: `success` is a validated response,
`failure` is any exception on the way (generation error, `json.loads`
error, or Pydantic validation error). -/
inductive GenResult
  | success (r : RAGResponseV)
  | failure (msg : String)

/-- The patch returned by `rag_generator_node`.  `usedGeneration` records
whether control reached the LLM invocation (the no-documents branch
returns before the model is even constructed). -/
structure RagPatch where
  rag_answer : String
  rag_sources : List String
  rag_confidence : String
  usedGeneration : Bool
  error : Option String
deriving DecidableEq

/-- `RAG_NO_ANSWER` from `app/graph/prompts/templates.py`. -/
def RAG_NO_ANSWER_answer : String :=
  "I don't have enough verified ASTU information to answer this accurately."

def RAG_NO_ANSWER_sources : List String := []

def RAG_NO_ANSWER_confidence : String := "low"

/-- `rag_generator_node`: `state.get("retrieved_documents", [])` is
`docs?.getD []`; `if not retrieved_documents` is the emptiness test. -/
def rag_generator_node (docs? : Option (List RetrievedDoc)) (gen : GenResult) :
    RagPatch :=
  let retrieved_documents := docs?.getD []
  if retrieved_documents.isEmpty then
    ⟨RAG_NO_ANSWER_answer, RAG_NO_ANSWER_sources, RAG_NO_ANSWER_confidence,
      false, none⟩
  else
    match gen with
    | .success r => ⟨r.answer, r.sources_used, r.confidence.asString, true, none⟩
    | .failure e => ⟨RAG_NO_ANSWER_answer, RAG_NO_ANSWER_sources, "low",
        true, some ("Generation failed: " ++ e)⟩

/-! ## C3/C4: walking-time estimation and urgency adjustment

Two distinct code paths adjust a duration for urgency:
* `RoutingService.find_route` (`app/services/routing_service.py`): the
  1-minute floor sits inside `_estimate_walking_time`, **before** the
  urgency multiplication, and nothing re-floors afterwards;
* `_handle_navigation` (`app/graph/nodes/geo_reasoning.py`): the urgency
  multiplication happens first and `max(1, ...)` is applied **after**. -/

/-- `RoutingService._estimate_walking_time`: minutes from kilometres with
`walking_speed = 1.4 / 1000` (the source comments it as km/minute) and a
floor of one minute: `max(1, int(distance_km / walking_speed))`. -/
def _estimate_walking_time (distance_km : ℚ) : ℤ :=
  let walking_speed : ℚ := 14/10 / 1000
  max 1 (pyInt (distance_km / walking_speed))

/-- The urgency branch of `RoutingService.find_route`:
`int(walking_time * 0.8)` for `"exam"`, `int(walking_time * 1.3)` for
`"accessibility"`, unchanged otherwise.  No floor follows. -/
def find_route_adjust (urgency : String) (walking_time : ℤ) : ℤ :=
  if urgency = "exam" then pyInt ((walking_time : ℚ) * (8/10))
  else if urgency = "accessibility" then pyInt ((walking_time : ℚ) * (13/10))
  else walking_time

/-- The duration `RoutingService.find_route` reports for a route of the
given haversine distance. -/
def find_route_duration (distance_km : ℚ) (urgency : String) : ℤ :=
  find_route_adjust urgency (_estimate_walking_time distance_km)

/-- The urgency branch of `_handle_navigation` in `geo_reasoning.py`:
multiplication first (`int(time_minutes * 0.8)` / `* 1.3`). -/
def geo_urgency_adjust (urgency : String) (time_minutes : ℤ) : ℤ :=
  if urgency = "exam" then pyInt ((time_minutes : ℚ) * (8/10))
  else if urgency = "accessibility" then pyInt ((time_minutes : ℚ) * (13/10))
  else time_minutes

/-- `_handle_navigation`'s final duration: urgency adjustment followed by
`time_minutes = max(1, time_minutes)`. -/
def geo_time_with_floor (urgency : String) (time_minutes : ℤ) : ℤ :=
  max 1 (geo_urgency_adjust urgency time_minutes)

/-- The straight-line fallback duration base of `_handle_navigation`:
`int((distance_km / walking_speed_kmh) * 60)` with
`walking_speed_kmh = 5.0`. -/
def fallback_time_minutes (distance_km : ℚ) : ℤ :=
  let walking_speed_kmh : ℚ := 5
  pyInt (distance_km / walking_speed_kmh * 60)

/-- `OSMService.get_route`'s in-graph duration in minutes before rounding:
`walking_time = total_distance / 1.4` seconds (1.4 m/s), divided by 60. -/
def osm_duration_minutes (total_distance_meters : ℚ) : ℚ :=
  total_distance_meters / (14/10) / 60

/-- A POI row as returned by `Database.get_pois_by_category`
(the fields `RoutingService.find_route` reads). -/
structure DbPOI where
  name : String
  latitude : ℚ
  longitude : ℚ
deriving DecidableEq

/-- `RoutingService._find_poi_by_name`: lower-case the name, split into
words, return the first category lookup that yields a row.  The database
collaborator is the function `byCategory` (`get_pois_by_category` with
`limit=1`). -/
def _find_poi_by_name (byCategory : String → List DbPOI) (name : String) :
    Option DbPOI :=
  (pySplit (pyLower name)).findSome? fun category => (byCategory category).head?

/-- The route dictionary built by `RoutingService.find_route` (the fields
the claims consult). -/
structure FindRouteResult where
  start_name : String
  end_name : String
  total_distance_km : ℚ
  estimated_time_minutes : ℤ
  urgency_mode : String
deriving DecidableEq

/-- `RoutingService.find_route`: resolve both names, measure the haversine
distance, estimate the walking time, adjust for urgency.  A missing POI
raises `LocationNotFound` (modelled as `Except.error`). -/
def find_route (ops : MathOps) (byCategory : String → List DbPOI)
    (start_name end_name urgency : String) : Except String FindRouteResult :=
  match _find_poi_by_name byCategory start_name,
      _find_poi_by_name byCategory end_name with
  | some start_poi, some end_poi =>
    let distance := haversine_distance ops start_poi.latitude
      start_poi.longitude end_poi.latitude end_poi.longitude
    let walking_time := find_route_adjust urgency (_estimate_walking_time distance)
    .ok ⟨start_poi.name, end_poi.name, pyRound2 distance, walking_time, urgency⟩
  | none, _ => .error ("LocationNotFound: " ++ start_name)
  | _, none => .error ("LocationNotFound: " ++ end_name)

/-! ## C5: OSM routing (`app/services/osm_service.py`)

The graph itself comes from osmnx and is queried through networkx; those
library calls are the collaborator boundary, modelled as the `OSMEnv`
record (`geod` is geopy's `geodesic(...).meters`, `nearestNode` is
`ox.distance.nearest_nodes`, `shortestPath` is `nx.shortest_path` with
`weight="length"`, returning `none` when no path exists — the library
exception is caught by the source's `except` and turned into `None`). -/

/-- A coordinate pair `(lat, lng)`. -/
abbrev Coord := ℚ × ℚ

/-- The loaded walking graph: the node list (id, `y`=lat, `x`=lng) as
iterated by `graph.nodes(data=True)`, the per-node coordinates
`graph.nodes[n]`, and the `length` attribute of the first parallel edge
returned by `get_edge_data` (`none` when there is no edge). -/
structure OSMGraph where
  nodes : List (ℕ × ℚ × ℚ)
  nodeCoord : ℕ → ℚ × ℚ
  edgeLength : ℕ → ℕ → Option ℚ

/-- The external-library boundary of `OSMService`. -/
structure OSMEnv where
  geod : Coord → Coord → ℚ
  nearestNode : OSMGraph → ℚ → ℚ → ℕ
  shortestPath : OSMGraph → ℕ → ℕ → Option (List ℕ)

/-- `OSMService.ASTU_CENTER`. -/
def ASTU_CENTER : Coord := (8557/1000, 392915/10000)

/-- `OSMService.CAMPUS_RADIUS` (metres). -/
def CAMPUS_RADIUS : ℚ := 1000

/-- Sum of edge lengths along a node path, as both routing loops compute
it: for each consecutive pair take the first parallel edge's `length`
(contributing `0` when `get_edge_data` yields nothing). -/
def pathLength (g : OSMGraph) (route : List ℕ) : ℚ :=
  (route.zip route.tail).foldl (fun acc p => acc + ((g.edgeLength p.1 p.2).getD 0)) 0

/-- `OSMService._generate_instructions`: coarse instructions from path
length tiers. -/
def _generate_instructions (route : List ℕ) : List String :=
  let segment_count := route.length
  let middle :=
    if segment_count ≤ 2 then ["Walk straight to your destination"]
    else if segment_count ≤ 5 then ["Continue walking along the path"]
    else ["Follow the walking path",
      "Continue for approximately " ++ toString (segment_count * 20) ++ " meters"]
  ["Start from your current location"] ++ middle ++
    ["You have arrived at your destination"]

/-- The route dictionary built by `OSMService.get_route` /
`_route_to_external_destination`.  Distances are kept exact (the source
rounds them to one decimal when building the dictionary; the rounding is
presentational and `pyRound1` is available where it matters).  The two
segment fields are `none` exactly when the corresponding keys are absent
from the dictionary (the in-graph branch). -/
structure RouteResult where
  distance_meters : ℚ
  distance_km : ℚ
  duration_seconds : ℚ
  duration_minutes : ℚ
  route_coords : List Coord
  instructions : List String
  nodes_count : ℕ
  external_destination : Bool
  campus_distance_meters : Option ℚ
  external_distance_meters : Option ℚ

/-- The boundary-ring scan and exit selection of
`OSMService._route_to_external_destination`: keep the nodes further than
85 % of the campus radius from the centre, then fold for the argmin of
geodesic distance to the destination (`min_dist` starts at infinity and
the comparison is strict, so the first minimiser wins). -/
def bestExitNode (env : OSMEnv) (g : OSMGraph) (end_lat end_lng : ℚ) :
    Option (ℕ × ℚ × ℚ) :=
  let boundary_nodes := g.nodes.filter fun n =>
    decide (env.geod ASTU_CENTER (n.2.1, n.2.2) > CAMPUS_RADIUS * (85/100))
  boundary_nodes.foldl (fun best n =>
    match best with
    | none => some n
    | some b =>
      if env.geod (n.2.1, n.2.2) (end_lat, end_lng) <
          env.geod (b.2.1, b.2.2) (end_lat, end_lng) then some n else best)
    none

/-- `OSMService._route_to_external_destination`: route to the campus exit
nearest the destination, then append a straight-line external segment. -/
def _route_to_external_destination (env : OSMEnv) (g : OSMGraph)
    (start_lat start_lng end_lat end_lng : ℚ) : Option RouteResult :=
  match bestExitNode env g end_lat end_lng with
  | none => none
  | some (exit_node, exit_lat, exit_lng) =>
    let start_node := env.nearestNode g start_lng start_lat
    match env.shortestPath g start_node exit_node with
    | none => none
    | some route =>
      let campus_distance := pathLength g route
      let external_distance := env.geod (exit_lat, exit_lng) (end_lat, end_lng)
      let total_distance := campus_distance + external_distance
      let walking_time := total_distance / (14/10)
      some {
        distance_meters := total_distance
        distance_km := total_distance / 1000
        duration_seconds := walking_time
        duration_minutes := walking_time / 60
        route_coords := route.map g.nodeCoord ++ [(end_lat, end_lng)]
        instructions := ["Start from your current location",
          "Follow the campus path to the nearest exit (" ++
            toString (pyRound campus_distance) ++ "m)",
          "Exit the campus",
          "Continue straight for approximately " ++
            toString (pyRound external_distance) ++ "m to reach your destination",
          "You have arrived at your destination"]
        nodes_count := route.length
        external_destination := true
        campus_distance_meters := some campus_distance
        external_distance_meters := some external_distance }

/-- `OSMService.get_route` over a loaded graph: a destination further than
`CAMPUS_RADIUS + 200` metres from the campus centre goes to the hybrid
branch, otherwise nearest-node snapping and an in-graph shortest path. -/
def OSMService_get_route (env : OSMEnv) (g : OSMGraph)
    (start_lat start_lng end_lat end_lng : ℚ) : Option RouteResult :=
  let dest_distance_from_center := env.geod ASTU_CENTER (end_lat, end_lng)
  if dest_distance_from_center > CAMPUS_RADIUS + 200 then
    _route_to_external_destination env g start_lat start_lng end_lat end_lng
  else
    let start_node := env.nearestNode g start_lng start_lat
    let end_node := env.nearestNode g end_lng end_lat
    match env.shortestPath g start_node end_node with
    | none => none
    | some route =>
      let total_distance := pathLength g route
      let walking_time := total_distance / (14/10)
      some {
        distance_meters := total_distance
        distance_km := total_distance / 1000
        duration_seconds := walking_time
        duration_minutes := walking_time / 60
        route_coords := route.map g.nodeCoord
        instructions := _generate_instructions route
        nodes_count := route.length
        external_destination := false
        campus_distance_meters := none
        external_distance_meters := none }

/-- `RoutingService.get_route`: delegate to the OSM service when present,
otherwise log and return `None` — no exception escapes. -/
def RoutingService_get_route (osm? : Option (OSMEnv × OSMGraph))
    (start_lat start_lng end_lat end_lng : ℚ) : Option RouteResult :=
  match osm? with
  | some (env, g) => OSMService_get_route env g start_lat start_lng end_lat end_lng
  | none => none

/-! ## C7: the navigation handler (`_handle_navigation` in
`app/graph/nodes/geo_reasoning.py`), after location extraction -/

/-- A resolved POI as used by `_handle_navigation` (name + coordinates). -/
structure NavPOI where
  name : String
  latitude : ℚ
  longitude : ℚ

/-- Stand-in for Python's `f"{x:.2f}"` formatting of a float (the numeric
value is rounded to two decimals; the exact text rendering is
presentational). -/
def fmt2f (q : ℚ) : String := toString (pyRound2 q)

/-- The patch returned by `_handle_navigation` (fields absent from the
returned dictionary are `none`; `reasoning_stream` omitted as
presentation-only). -/
structure NavPatch where
  route_summary : String
  distance_estimate : Option String
  route_steps : List String
  geo_reasoning : List String
  geo_confidence : String
  start_coordinates : Option (ℚ × ℚ × String)
  end_coordinates : Option (ℚ × ℚ × String)
  route_coords : Option (List Coord)
  error : Option String

/-- The dictionary returned by `_handle_navigation`'s `except` handler. -/
def nav_error_patch (msg : String) : NavPatch where
  route_summary := "Unable to calculate route"
  distance_estimate := none
  route_steps := [msg]
  geo_reasoning := ["Error: " ++ msg]
  geo_confidence := "low"
  start_coordinates := none
  end_coordinates := none
  route_coords := none
  error := some ("Navigation failed: " ++ msg)

/-- `_handle_navigation` from the point where `osm_route` is known
(the `routing_service.get_route` result; its own exceptions are already
caught and leave `osm_route = None`).

When `osm_route` is present but carries no instructions, the step-building
`else` branch reads the local `direction`, which only the fallback branch
assigns — the resulting `NameError` is caught by the function's `except`
and becomes the error patch. -/
def navigation_result (ops : MathOps) (start_poi end_poi : NavPOI)
    (osm_route : Option RouteResult) (urgency : String) : NavPatch :=
  match osm_route with
  | some r =>
    if r.instructions.isEmpty then
      nav_error_patch "name 'direction' is not defined"
    else
      let distance_km := r.distance_km
      let time_minutes := geo_time_with_floor urgency (pyInt r.duration_minutes)
      { route_summary := "Route from " ++ start_poi.name ++ " to " ++
          end_poi.name ++ ": " ++ fmt2f distance_km ++ "km, ~" ++
          toString time_minutes ++ " min walk"
        distance_estimate := some (fmt2f distance_km ++ "km")
        route_steps := r.instructions
        geo_reasoning := ["Matched start location to: " ++ start_poi.name,
          "Matched destination to: " ++ end_poi.name,
          "Calculated distance: " ++ fmt2f distance_km ++ "km",
          "Route type: OSM walking path",
          "Applied urgency mode: " ++ urgency]
        geo_confidence := "high"
        start_coordinates := some (start_poi.latitude, start_poi.longitude, start_poi.name)
        end_coordinates := some (end_poi.latitude, end_poi.longitude, end_poi.name)
        route_coords := some (if r.route_coords.isEmpty then
            [(start_poi.latitude, start_poi.longitude),
             (end_poi.latitude, end_poi.longitude)]
          else r.route_coords)
        error := none }
  | none =>
    let distance_km := haversine_distance ops start_poi.latitude
      start_poi.longitude end_poi.latitude end_poi.longitude
    let distance_meters := pyInt (distance_km * 1000)
    let direction := bearing_to_direction (calculate_bearing ops
      start_poi.latitude start_poi.longitude end_poi.latitude end_poi.longitude)
    let time_minutes := geo_time_with_floor urgency (fallback_time_minutes distance_km)
    let route_steps :=
      if distance_km < 1/10 then
        [end_poi.name ++ " is very close to " ++ start_poi.name,
         "Walk " ++ toString distance_meters ++ "m " ++ direction]
      else
        ["Start at " ++ start_poi.name,
         "Head " ++ direction ++ " for " ++ toString distance_meters ++ "m",
         "Arrive at " ++ end_poi.name]
    { route_summary := "Route from " ++ start_poi.name ++ " to " ++
        end_poi.name ++ ": " ++ fmt2f distance_km ++ "km, ~" ++
        toString time_minutes ++ " min walk"
      distance_estimate := some (fmt2f distance_km ++ "km")
      route_steps := route_steps
      geo_reasoning := ["Matched start location to: " ++ start_poi.name,
        "Matched destination to: " ++ end_poi.name,
        "Calculated distance: " ++ fmt2f distance_km ++ "km",
        "Route type: straight line estimate",
        "Applied urgency mode: " ++ urgency]
      geo_confidence := "high"
      start_coordinates := some (start_poi.latitude, start_poi.longitude, start_poi.name)
      end_coordinates := some (end_poi.latitude, end_poi.longitude, end_poi.name)
      route_coords := some [(start_poi.latitude, start_poi.longitude),
        (end_poi.latitude, end_poi.longitude)]
      error := none }

/-- `_handle_navigation`'s routing step composed with
`RoutingService.get_route` (which returns `None` when no OSM service /
graph is available). -/
def handle_navigation_core (ops : MathOps) (osm? : Option (OSMEnv × OSMGraph))
    (start_poi end_poi : NavPOI) (urgency : String) : NavPatch :=
  navigation_result ops start_poi end_poi
    (RoutingService_get_route osm? start_poi.latitude start_poi.longitude
      end_poi.latitude end_poi.longitude) urgency

/-! ## C6: tiered POI resolution
(`VectorSearchService.search_pois` in `app/services/vector_service.py`) -/

/-- A POI row as the vector/routing services consume it (`models.POI`;
that Pydantic model has no `type` attribute, which matters for the
`getattr(poi, 'type', '')` test in the nearby-service search). -/
structure SvcPOI where
  id : ℤ
  name : String
  category : String
  latitude : ℚ
  longitude : ℚ
  description : Option String
deriving DecidableEq

/-- Outcome of the embedding generation plus the pgvector similarity
query, both inside the inner `try`: `failure` is any exception there,
`rows` the ranked rows (the SQL has `LIMIT` but no similarity cutoff). -/
inductive Tier1Outcome
  | failure (msg : String)
  | rows (rs : List SvcPOI)

/-- The similarity-query outcome under the program's actual wiring:
`container.py` injects `database.Database`, which defines **no**
`execute_query` method, so `self.db.execute_query(...)` raises
`AttributeError` before any rows can be produced. -/
def tier1_wired_outcome : Tier1Outcome :=
  .failure "AttributeError: 'Database' object has no attribute 'execute_query'"

/-- The category/keyword fallback tier of `search_pois`: lower-case the
query, split into keywords, concatenate the category lookups
(`get_pois_by_category(keyword, limit=limit)`), truncate to `limit`. -/
def keyword_fallback (byCategory : String → ℕ → List SvcPOI)
    (query : String) (limit : ℕ) : List SvcPOI :=
  ((pySplit (pyLower query)).map (fun kw => byCategory kw limit)).flatten.take limit

/-- Attribute access `poi.similarity` on a validated `models.POI`: the
model declares no `similarity` field, and Pydantic's default
`extra='ignore'` silently dropped the `similarity=r["similarity"]`
constructor keyword, so the access always raises `AttributeError`. -/
def poiSimilarityAttr (_ : SvcPOI) : Except String ℚ :=
  .error "AttributeError: 'POI' object has no attribute 'similarity'"

/-- `VectorSearchService.search_pois`.  When the similarity query yields
rows, the success path builds the `POI` objects and then logs
`f"... (best: {pois[0].similarity:.2f})"` — still inside the inner
`try`, **before** `return pois`.  That attribute access raises (see
`poiSimilarityAttr`), the inner `except` catches it, and control falls
to the keyword fallback; an empty result or any earlier exception falls
back the same way.  (There is no further tier.) -/
def search_pois (t1 : Tier1Outcome) (byCategory : String → ℕ → List SvcPOI)
    (query : String) (limit : ℕ) : List SvcPOI :=
  match t1 with
  | .rows rs =>
    match rs with
    | [] => keyword_fallback byCategory query limit
    | p :: _ =>
      match poiSimilarityAttr p with
      | .ok _ => rs
      | .error _ => keyword_fallback byCategory query limit
  | .failure _ => keyword_fallback byCategory query limit

/-- Modelled from the spec: the lexical substring fallback the spec lists
as tier 3 ("Lexical substring fallback: search name/category/description
text directly").  A helper of this shape (`Database.search_pois_by_text`)
is invoked by test scripts in the repository but its definition is not
under `src/`; this definition follows the spec's words. -/
def search_pois_by_text_spec (allPois : List SvcPOI) (query : String)
    (limit : ℕ) : List SvcPOI :=
  (allPois.filter fun p =>
    pyContains (pyLower query) (pyLower p.name) ||
    pyContains (pyLower query) (pyLower p.category) ||
    pyContains (pyLower query) (pyLower (p.description.getD ""))).take limit

/-- The resolution flow as the spec (and claim C6) describes it: three
tiers in fixed priority, first success wins.  Stated for comparison with
`search_pois`, in which the embedding tier can never return and no
lexical tier exists. -/
def search_pois_spec (t1 : Tier1Outcome) (byCategory : String → ℕ → List SvcPOI)
    (allPois : List SvcPOI) (query : String) (limit : ℕ) : List SvcPOI :=
  let tier2 := keyword_fallback byCategory query limit
  let tier23 := if !tier2.isEmpty then tier2
    else search_pois_by_text_spec allPois query limit
  match t1 with
  | .rows rs => if !rs.isEmpty then rs else tier23
  | .failure _ => tier23

/-! ## C8: response composer (`app/graph/nodes/response_composer.py`) -/

/-- A nearby-service dictionary as built by
`RoutingService.find_nearby_services`. -/
structure NearbyService where
  id : ℤ
  name : String
  category : String
  latitude : ℚ
  longitude : ℚ
  distance_km : ℚ
  description : Option String
deriving DecidableEq

/-- The graph state fields the response composer reads (`GraphState` in
`app/graph/state.py`; every field is optional and `none` models an
absent key, so `state.get(...)` is `Option.getD`). -/
structure GraphState where
  intent : Option String := none
  rag_answer : Option String := none
  rag_sources : Option (List String) := none
  rag_confidence : Option String := none
  route_summary : Option String := none
  distance_estimate : Option String := none
  route_steps : Option (List String) := none
  geo_reasoning : Option (List String) := none
  geo_confidence : Option String := none
  start_coordinates : Option (ℚ × ℚ × String) := none
  end_coordinates : Option (ℚ × ℚ × String) := none
  route_coords : Option (List Coord) := none
  nearby_services : Option (List NearbyService) := none
  service_category : Option String := none
  reasoning_stream : Option (List String) := none

/-- Python `str.strip()`. -/
def pyStrip (s : String) : String :=
  ⟨((s.data.dropWhile Char.isWhitespace).reverse.dropWhile Char.isWhitespace).reverse⟩

/-- Python `str.title()`: upper-case the first letter of each alphabetic
run, lower-case the rest. -/
def pyTitleAux : Bool → List Char → List Char
  | _, [] => []
  | prevAlpha, c :: cs =>
    let mapped := if c.isAlpha then
        (if prevAlpha then c.toLower else c.toUpper) else c
    mapped :: pyTitleAux c.isAlpha cs

def pyTitle (s : String) : String := ⟨pyTitleAux false s.data⟩

/-- `_compose_navigation_response`: summary, distance, optional step and
rationale blocks, stripped. -/
def _compose_navigation_response (state : GraphState) : String :=
  let summary := state.route_summary.getD "No route available"
  let distance := state.distance_estimate.getD "Unknown distance"
  let steps := state.route_steps.getD []
  let reasoning := state.geo_reasoning.getD []
  let response := "**" ++ summary ++ "**\n\n" ++
    "**Estimated Distance:** " ++ distance ++ "\n\n"
  let response := if !steps.isEmpty then
      response ++ "**Route Steps:**\n" ++
        String.join (steps.map fun step => "- " ++ step ++ "\n")
    else response
  let response := if !reasoning.isEmpty then
      response ++ "\n**Why this route:**\n" ++
        String.join (reasoning.map fun reason => "- " ++ reason ++ "\n")
    else response
  pyStrip response

/-- `_compose_nearby_response`: summary plus the top five services. -/
def _compose_nearby_response (state : GraphState) : String :=
  let category := state.service_category.getD "services"
  let services := state.nearby_services.getD []
  let summary := state.route_summary.getD ("No " ++ category ++ " found nearby")
  if services.isEmpty then summary
  else
    let response := "**" ++ summary ++ "**\n\n" ++
      "**Top " ++ pyTitle category ++ "s near ASTU:**\n\n"
    let response := response ++ String.join ((services.take 5).enum.map
      fun p => toString (p.1 + 1) ++ ". **" ++ p.2.name ++ "** - " ++
        toString p.2.distance_km ++ "km away\n")
    pyStrip response

/-- The composer's result: the computed answer fields plus the metadata
the source passes through from the state unchanged. -/
structure ComposerResult where
  final_answer : String
  sources_used : List String
  reasoning_stream : List String
  intent : String
  start_coordinates : Option (ℚ × ℚ × String)
  end_coordinates : Option (ℚ × ℚ × String)
  distance_estimate : Option String
  route_coords : Option (List Coord)
  rag_confidence : Option String
  geo_confidence : Option String

/-- `response_composer_node`: select the answer template by intent, then
build `response_data` with the geodata passed through from the state. -/
def response_composer_node (state : GraphState) : ComposerResult :=
  let intent := state.intent.getD "UNIVERSITY_INFO"
  let base := state.reasoning_stream.getD []
  let branch : String × List String × List String :=
    if intent = "NAVIGATION" then
      (_compose_navigation_response state, [],
        base ++ ["Here is your recommended path"])
    else if intent = "NEARBY_SERVICE" then
      (_compose_nearby_response state, [],
        base ++ ["Here are the nearby services"])
    else if intent = "UNIVERSITY_INFO" then
      (state.rag_answer.getD "No information available",
        state.rag_sources.getD [],
        base ++ ["Answer based on verified ASTU sources"])
    else if intent = "MIXED" then
      (state.rag_answer.getD "" ++ "\n\n" ++ _compose_navigation_response state,
        state.rag_sources.getD [],
        base ++ ["Combined information and navigation guidance"])
    else
      ("I'm not sure how to help with that. Please try rephrasing your question.",
        [], base ++ ["Unable to classify request"])
  { final_answer := branch.1
    sources_used := branch.2.1
    reasoning_stream := branch.2.2
    intent := intent
    start_coordinates := state.start_coordinates
    end_coordinates := state.end_coordinates
    distance_estimate := state.distance_estimate
    route_coords := state.route_coords
    rag_confidence := state.rag_confidence
    geo_confidence := state.geo_confidence }

/-! ## C10: nearby-service search
(`RoutingService.find_nearby_services` in `app/services/routing_service.py`) -/

/-- The name/category/type membership test applied inside the radius:
`getattr(poi, 'type', '')` always yields `""` because the POI model has
no `type` field, so the third disjunct only fires for the empty search
term. -/
def nearby_match (search_term_lower : String) (poi : SvcPOI) : Bool :=
  pyContains search_term_lower (pyLower poi.name) ||
  pyContains search_term_lower (pyLower poi.category) ||
  pyContains search_term_lower ""

/-- The comparison key of `nearby_services.sort(key=lambda x: x["distance_km"])`. -/
def nearbyLE (a b : NearbyService) : Prop := a.distance_km ≤ b.distance_km

instance : DecidableRel nearbyLE := fun a b =>
  inferInstanceAs (Decidable (a.distance_km ≤ b.distance_km))

instance : IsTotal NearbyService nearbyLE :=
  ⟨fun a b => le_total a.distance_km b.distance_km⟩

instance : IsTrans NearbyService nearbyLE :=
  ⟨fun _ _ _ hab hbc => le_trans hab hbc⟩

/-- `RoutingService.find_nearby_services` given the POIs the vector
service returned (`search_pois(service_type, limit=50)`): keep POIs
within the radius whose name/category/type contains the search term,
attach the two-decimal distance, and sort by that distance key.  Python's
`list.sort` is stable; `List.insertionSort` with a `≤`-key relation is
the stable sort with the same result. -/
def find_nearby_services (ops : MathOps) (pois : List SvcPOI)
    (latitude longitude : ℚ) (service_type : String) (radius_km : ℚ) :
    List NearbyService :=
  let search_term_lower := pyLower service_type
  let nearby_services := pois.filterMap fun poi =>
    let distance := haversine_distance ops latitude longitude
      poi.latitude poi.longitude
    if distance ≤ radius_km then
      if nearby_match search_term_lower poi then
        some { id := poi.id
               name := poi.name
               category := poi.category
               latitude := poi.latitude
               longitude := poi.longitude
               distance_km := pyRound2 distance
               description := poi.description }
      else none
    else none
  List.insertionSort nearbyLE nearby_services

/-! # Theorems -/

/-- C1: `routing_decision_node` maps NAVIGATION and NEARBY_SERVICE to
"geo", UNIVERSITY_INFO to "rag" and MIXED to "both"; and after the RAG
generation node the conditional edge continues to `geo_reasoning` if and
only if the intent equals MIXED, otherwise to `response_composer`. -/
theorem routing_decision_maps_intents_and_mixed_continues_to_geo :
    routing_decision_node (some "NAVIGATION") = "geo" ∧
    routing_decision_node (some "NEARBY_SERVICE") = "geo" ∧
    routing_decision_node (some "UNIVERSITY_INFO") = "rag" ∧
    routing_decision_node (some "MIXED") = "both" ∧
    (∀ intent? : Option String,
      (rag_generator_branch intent? = "geo" ↔ intent? = some "MIXED")) ∧
    rag_generator_edges "geo" = some "geo_reasoning" ∧
    rag_generator_edges "compose" = some "response_composer" := by
  refine ⟨rfl, rfl, rfl, rfl, ?_, rfl, rfl⟩
  intro intent?
  unfold rag_generator_branch
  by_cases h : intent? = some "MIXED"
  · simp [h]
  · simp [h]

/-- C9: whatever the generation/parse outcome, the intent the classifier
stores is one of the four schema literals, so the routing decision never
observes an intent outside that set (and always returns one of the three
pipeline tags). -/
theorem intent_always_in_schema_before_branching (o : LLMOutcome) :
    (intent_classifier_node o).intent ∈
      ["NAVIGATION", "NEARBY_SERVICE", "UNIVERSITY_INFO", "MIXED"] ∧
    routing_decision_node (some ((intent_classifier_node o).intent)) ∈
      ["geo", "rag", "both"] := by
  match o with
  | .failure msg => exact ⟨by simp [intent_classifier_node], by
      simp [intent_classifier_node, routing_decision_node]⟩
  | .json f =>
    rcases hv : validateIntent f with _ | i
    · constructor
      · simp [intent_classifier_node, hv]
      · simp [intent_classifier_node, hv, routing_decision_node]
    · cases i <;>
        constructor <;>
          simp [intent_classifier_node, hv, Intent.asString, routing_decision_node]

/-- C2: with an empty (or absent) retrieved-documents list the RAG
generator returns exactly the `RAG_NO_ANSWER` sentinel with confidence
"low" and never reaches the generation call; and on any
generation/parse/validation failure it returns the same sentinel answer
with confidence "low" and empty sources — no partially parsed content. -/
theorem rag_generator_sentinel_on_empty_docs_and_failures
    (docs? : Option (List RetrievedDoc)) (gen : GenResult) :
    ((docs?.getD []).isEmpty = true →
      rag_generator_node docs? gen =
        ⟨RAG_NO_ANSWER_answer, RAG_NO_ANSWER_sources, RAG_NO_ANSWER_confidence,
          false, none⟩) ∧
    (∀ e, gen = .failure e →
      (rag_generator_node docs? gen).rag_answer = RAG_NO_ANSWER_answer ∧
      (rag_generator_node docs? gen).rag_sources = [] ∧
      (rag_generator_node docs? gen).rag_confidence = "low") := by
  constructor
  · intro h
    unfold rag_generator_node
    simp only [h]
    rfl
  · intro e hgen
    subst hgen
    unfold rag_generator_node
    by_cases h : (docs?.getD []).isEmpty
    · simp only [h]
      exact ⟨rfl, rfl, rfl⟩
    · simp only [h]
      exact ⟨rfl, rfl, rfl⟩

/-- Witness for C2 at a concrete input: an absent document list together
with a failing generation outcome. -/
theorem rag_generator_sentinel_witness :
    rag_generator_node none (.failure "boom") =
      ⟨RAG_NO_ANSWER_answer, RAG_NO_ANSWER_sources, RAG_NO_ANSWER_confidence,
        false, none⟩ ∧
    (rag_generator_node none (.failure "boom")).rag_answer = RAG_NO_ANSWER_answer ∧
    (rag_generator_node none (.failure "boom")).rag_sources = [] ∧
    (rag_generator_node none (.failure "boom")).rag_confidence = "low" :=
  ⟨(rag_generator_sentinel_on_empty_docs_and_failures none (.failure "boom")).1
      (by decide),
    (rag_generator_sentinel_on_empty_docs_and_failures none
      (.failure "boom")).2 "boom" rfl⟩

/-! ### C3/C4 helper lemmas -/

theorem pyInt_exam_le {t : ℤ} (ht : 0 ≤ t) : pyInt ((t : ℚ) * (8/10)) ≤ t := by
  have htq : (0 : ℚ) ≤ (t : ℚ) := by exact_mod_cast ht
  rw [pyInt_of_nonneg (by nlinarith)]
  calc ⌊(t : ℚ) * (8/10)⌋ ≤ ⌊(t : ℚ)⌋ := Int.floor_le_floor (by nlinarith)
    _ = t := Int.floor_intCast t

theorem le_pyInt_accessibility {t : ℤ} (ht : 0 ≤ t) :
    t ≤ pyInt ((t : ℚ) * (13/10)) := by
  have htq : (0 : ℚ) ≤ (t : ℚ) := by exact_mod_cast ht
  rw [pyInt_of_nonneg (by nlinarith)]
  exact Int.le_floor.mpr (by nlinarith)

theorem find_route_adjust_normal (t : ℤ) : find_route_adjust "normal" t = t := by
  unfold find_route_adjust
  rw [if_neg (by decide), if_neg (by decide)]

theorem find_route_adjust_exam (t : ℤ) :
    find_route_adjust "exam" t = pyInt ((t : ℚ) * (8/10)) := by
  unfold find_route_adjust
  rw [if_pos rfl]

theorem find_route_adjust_accessibility (t : ℤ) :
    find_route_adjust "accessibility" t = pyInt ((t : ℚ) * (13/10)) := by
  unfold find_route_adjust
  rw [if_neg (by decide), if_pos rfl]

theorem geo_urgency_adjust_normal (t : ℤ) : geo_urgency_adjust "normal" t = t := by
  unfold geo_urgency_adjust
  rw [if_neg (by decide), if_neg (by decide)]

theorem geo_urgency_adjust_exam (t : ℤ) :
    geo_urgency_adjust "exam" t = pyInt ((t : ℚ) * (8/10)) := by
  unfold geo_urgency_adjust
  rw [if_pos rfl]

theorem geo_urgency_adjust_accessibility (t : ℤ) :
    geo_urgency_adjust "accessibility" t = pyInt ((t : ℚ) * (13/10)) := by
  unfold geo_urgency_adjust
  rw [if_neg (by decide), if_pos rfl]

theorem one_le_estimate_walking_time (d : ℚ) : 1 ≤ _estimate_walking_time d :=
  le_max_left 1 _

/-- C4 (amended): in the geo-reasoning node the urgency adjustment
multiplies the base duration by 0.8 / 1.0 / 1.3 and only then applies the
1-minute floor, and the floored result is monotone in the urgency factor;
in `find_route` the floor instead precedes the multiplication (so exam
durations below one minute are reachable), but the ordering
duration(exam) ≤ duration(normal) ≤ duration(accessibility) holds on both
paths for any fixed base distance. -/
theorem urgency_ordering_both_paths (t : ℤ) (d : ℚ) (ht : 0 ≤ t) :
    (geo_time_with_floor "exam" t = max 1 (pyInt ((t : ℚ) * (8/10))) ∧
     geo_time_with_floor "normal" t = max 1 t ∧
     geo_time_with_floor "accessibility" t = max 1 (pyInt ((t : ℚ) * (13/10)))) ∧
    (geo_time_with_floor "exam" t ≤ geo_time_with_floor "normal" t ∧
     geo_time_with_floor "normal" t ≤ geo_time_with_floor "accessibility" t) ∧
    (∀ u : String, 1 ≤ geo_time_with_floor u t) ∧
    (find_route_duration d "exam" ≤ find_route_duration d "normal" ∧
     find_route_duration d "normal" ≤ find_route_duration d "accessibility") := by
  have hw : 0 ≤ _estimate_walking_time d :=
    le_trans (by norm_num) (one_le_estimate_walking_time d)
  refine ⟨⟨?_, ?_, ?_⟩, ⟨?_, ?_⟩, ?_, ⟨?_, ?_⟩⟩
  · rw [geo_time_with_floor, geo_urgency_adjust_exam]
  · rw [geo_time_with_floor, geo_urgency_adjust_normal]
  · rw [geo_time_with_floor, geo_urgency_adjust_accessibility]
  · rw [geo_time_with_floor, geo_time_with_floor, geo_urgency_adjust_exam,
      geo_urgency_adjust_normal]
    exact max_le_max le_rfl (pyInt_exam_le ht)
  · rw [geo_time_with_floor, geo_time_with_floor, geo_urgency_adjust_normal,
      geo_urgency_adjust_accessibility]
    exact max_le_max le_rfl (le_pyInt_accessibility ht)
  · intro u
    exact le_max_left 1 _
  · rw [find_route_duration, find_route_duration, find_route_adjust_exam,
      find_route_adjust_normal]
    exact pyInt_exam_le hw
  · rw [find_route_duration, find_route_duration, find_route_adjust_normal,
      find_route_adjust_accessibility]
    exact le_pyInt_accessibility hw

/-- Witness for C4 at a concrete base duration and distance. -/
theorem urgency_ordering_witness :
    (geo_time_with_floor "exam" 3 ≤ geo_time_with_floor "normal" 3 ∧
     geo_time_with_floor "normal" 3 ≤ geo_time_with_floor "accessibility" 3) ∧
    (find_route_duration 2 "exam" ≤ find_route_duration 2 "normal" ∧
     find_route_duration 2 "normal" ≤ find_route_duration 2 "accessibility") :=
  ⟨(urgency_ordering_both_paths 3 2 (by decide)).2.1,
   (urgency_ordering_both_paths 3 2 (by decide)).2.2.2⟩

/-- C4 counterexample: `find_route` applies the 1-minute floor before the
urgency multiplication and never re-floors, so a 1-metre route in exam
mode gets duration 0 — the claimed "then floors the result at 1 minute"
is false on this path. -/
theorem find_route_exam_below_claimed_floor :
    find_route_duration (1/1000) "exam" = 0 ∧
    ¬ 1 ≤ find_route_duration (1/1000) "exam" := by
  have h : find_route_duration (1/1000) "exam" = 0 := by
    rw [find_route_duration, find_route_adjust_exam]
    have he : _estimate_walking_time (1/1000) = 1 := by
      rw [_estimate_walking_time]
      norm_num [pyInt]
    rw [he]
    norm_num [pyInt]
  rw [h]
  norm_num

/-! ### C3: coincident start and end -/

/-- C3 (amended): for coincident coordinates the haversine distance is 0
(for any backend satisfying `sin 0 = 0`, `sqrt 0 = 0`, `asin 0 = 0`); the
geo-reasoning navigation path then reports a duration of exactly 1 minute
for **every** urgency mode, while `RoutingService.find_route` reports
1 minute for normal and accessibility but 0 minutes for exam, because its
1-minute floor precedes the urgency multiplication. -/
theorem coincident_distance_zero_durations (ops : MathOps) (lat lon : ℚ)
    (u : String) (hsin : ops.sin 0 = 0) (hsqrt : ops.sqrt 0 = 0)
    (hasin : ops.asin 0 = 0) :
    haversine_distance ops lat lon lat lon = 0 ∧
    geo_time_with_floor u
      (fallback_time_minutes (haversine_distance ops lat lon lat lon)) = 1 ∧
    find_route_duration (haversine_distance ops lat lon lat lon) "normal" = 1 ∧
    find_route_duration (haversine_distance ops lat lon lat lon) "accessibility" = 1 ∧
    find_route_duration (haversine_distance ops lat lon lat lon) "exam" = 0 := by
  have hzero : haversine_distance ops lat lon lat lon = 0 := by
    unfold haversine_distance MathOps.radians
    rw [sub_self, sub_self]
    norm_num [hsin, hsqrt, hasin]
  have hfb : fallback_time_minutes (0 : ℚ) = 0 := by
    norm_num [fallback_time_minutes, pyInt]
  have hadj : ∀ v : String, geo_urgency_adjust v 0 = 0 := by
    intro v
    unfold geo_urgency_adjust
    split_ifs <;> norm_num [pyInt]
  have hest : _estimate_walking_time (0 : ℚ) = 1 := by
    norm_num [_estimate_walking_time, pyInt]
  refine ⟨hzero, ?_, ?_, ?_, ?_⟩
  · rw [hzero, hfb, geo_time_with_floor, hadj u]
    decide
  · rw [hzero, find_route_duration, hest, find_route_adjust_normal]
  · rw [hzero, find_route_duration, hest, find_route_adjust_accessibility]
    norm_num [pyInt]
  · rw [hzero, find_route_duration, hest, find_route_adjust_exam]
    norm_num [pyInt]

/-- Witness for C3 at a concrete backend and coordinate. -/
theorem coincident_distance_zero_witness :
    haversine_distance ⟨fun _ => 0, fun _ => 0, fun _ => 0, fun _ _ => 0,
        fun _ => 0, 0⟩ 1 2 1 2 = 0 ∧
    geo_time_with_floor "exam" (fallback_time_minutes (haversine_distance
      ⟨fun _ => 0, fun _ => 0, fun _ => 0, fun _ _ => 0, fun _ => 0, 0⟩
        1 2 1 2)) = 1 :=
  ⟨(coincident_distance_zero_durations _ 1 2 "exam" rfl rfl rfl).1,
   (coincident_distance_zero_durations _ 1 2 "exam" rfl rfl rfl).2.1⟩

/-- The transcendental backend at which the C3 counterexample is
evaluated: every call returns 0 (consistent with the identities the real
functions satisfy at 0, which is all a coincident pair exercises). -/
def zeroOps : MathOps :=
  ⟨fun _ => 0, fun _ => 0, fun _ => 0, fun _ _ => 0, fun _ => 0, 0⟩

/-- A category table holding one POI, so that start and end resolve to
the same coordinates (`get_pois_by_category("gate", limit=1)`). -/
def gateDb : String → List DbPOI :=
  fun category => if category = "gate" then [⟨"Main Gate", 2, 3⟩] else []

/-- C3 counterexample: a well-formed coincident route request in exam
mode.  `find_route` reports distance 0 but duration **0**, not the
1-minute floor the claim asserts for every urgency mode. -/
theorem coincident_exam_route_duration_zero :
    (find_route zeroOps gateDb "gate" "gate" "exam").toOption.map
        (fun r => (r.total_distance_km, r.estimated_time_minutes)) =
      some (0, 0) := by
  have hfind : _find_poi_by_name gateDb "gate" = some ⟨"Main Gate", 2, 3⟩ := by
    have hsplit : pySplit (pyLower "gate") = ["gate"] := by decide
    rw [_find_poi_by_name, hsplit]
    simp [gateDb]
  have hzero : haversine_distance zeroOps 2 3 2 3 = 0 :=
    (coincident_distance_zero_durations zeroOps 2 3 "exam" rfl rfl rfl).1
  rw [find_route, hfind]
  simp only [hzero]
  have hest : _estimate_walking_time (0 : ℚ) = 1 := by
    norm_num [_estimate_walking_time, pyInt]
  rw [find_route_adjust_exam, hest]
  norm_num [pyRound2, pyRound, pyInt, Except.toOption]

/-! ### C5: hybrid routing -/

theorem foldl_add_getD_nonneg (g : OSMGraph)
    (hlen : ∀ a b l, g.edgeLength a b = some l → 0 ≤ l) :
    ∀ (ps : List (ℕ × ℕ)) (acc : ℚ), 0 ≤ acc →
      0 ≤ ps.foldl (fun acc p => acc + ((g.edgeLength p.1 p.2).getD 0)) acc
  | [], _, hacc => hacc
  | p :: ps, acc, hacc => by
    rw [List.foldl_cons]
    refine foldl_add_getD_nonneg g hlen ps _ ?_
    have hp : 0 ≤ (g.edgeLength p.1 p.2).getD 0 := by
      cases h : g.edgeLength p.1 p.2 with
      | none => simp
      | some l => simpa using hlen p.1 p.2 l h
    linarith

/-- Edge lengths are non-negative, so any summed path length is. -/
theorem pathLength_nonneg (g : OSMGraph) (route : List ℕ)
    (hlen : ∀ a b l, g.edgeLength a b = some l → 0 ≤ l) :
    0 ≤ pathLength g route :=
  foldl_add_getD_nonneg g hlen _ 0 le_rfl

/-- C5: over a loaded graph (non-negative edge lengths, non-negative
geodesic distances), any returned route is tagged hybrid exactly when the
destination lies more than `CAMPUS_RADIUS + 200` metres from the campus
centre, and a hybrid result's total distance is the in-graph segment plus
the external straight-line segment, both non-negative. -/
theorem hybrid_flag_iff_and_segment_split (env : OSMEnv) (g : OSMGraph)
    (start_lat start_lng end_lat end_lng : ℚ) (r : RouteResult)
    (hgeod : ∀ a b : Coord, 0 ≤ env.geod a b)
    (hlen : ∀ a b l, g.edgeLength a b = some l → 0 ≤ l)
    (h : OSMService_get_route env g start_lat start_lng end_lat end_lng = some r) :
    (r.external_destination = true ↔
      env.geod ASTU_CENTER (end_lat, end_lng) > CAMPUS_RADIUS + 200) ∧
    (r.external_destination = true →
      ∃ c e, r.campus_distance_meters = some c ∧
        r.external_distance_meters = some e ∧
        r.distance_meters = c + e ∧ 0 ≤ c ∧ 0 ≤ e) := by
  unfold OSMService_get_route at h
  by_cases hd : env.geod ASTU_CENTER (end_lat, end_lng) > CAMPUS_RADIUS + 200
  · rw [if_pos hd] at h
    unfold _route_to_external_destination at h
    rcases hbe : bestExitNode env g end_lat end_lng with _ | be
    · rw [hbe] at h
      exact absurd h (by simp)
    · obtain ⟨exit_node, exit_lat, exit_lng⟩ := be
      rw [hbe] at h
      dsimp only at h
      rcases hsp : env.shortestPath g (env.nearestNode g start_lng start_lat)
          exit_node with _ | route
      · rw [hsp] at h
        exact absurd h (by simp)
      · rw [hsp] at h
        dsimp only at h
        obtain rfl := Option.some.inj h
        refine ⟨by simpa using hd, fun _ => ?_⟩
        exact ⟨pathLength g route, env.geod (exit_lat, exit_lng) (end_lat, end_lng),
          rfl, rfl, rfl, pathLength_nonneg g route hlen, hgeod _ _⟩
  · rw [if_neg hd] at h
    dsimp only at h
    rcases hsp : env.shortestPath g (env.nearestNode g start_lng start_lat)
        (env.nearestNode g end_lng end_lat) with _ | route
    · rw [hsp] at h
      exact absurd h (by simp)
    · rw [hsp] at h
      dsimp only at h
      obtain rfl := Option.some.inj h
      exact ⟨by simpa using hd, by simp⟩

/-- The witness environment for C5: a one-node graph sitting on the
boundary ring, a destination 2000 m from the centre. -/
def envW : OSMEnv where
  geod := fun _ b => if b = ((9 : ℚ), (39 : ℚ)) then 2000
    else if b = ((1 : ℚ), (1 : ℚ)) then 900 else 5
  nearestNode := fun _ _ _ => 0
  shortestPath := fun _ _ _ => some [0]

def gW : OSMGraph where
  nodes := [(0, 1, 1)]
  nodeCoord := fun _ => (1, 1)
  edgeLength := fun _ _ => none

/-- Witness for C5: the concrete request is answered, and the theorem's
conclusions hold for it. -/
theorem hybrid_flag_witness :
    ∃ r, OSMService_get_route envW gW 1 1 9 39 = some r ∧
      ((r.external_destination = true ↔
        envW.geod ASTU_CENTER (9, 39) > CAMPUS_RADIUS + 200) ∧
      (r.external_destination = true →
        ∃ c e, r.campus_distance_meters = some c ∧
          r.external_distance_meters = some e ∧
          r.distance_meters = c + e ∧ 0 ≤ c ∧ 0 ≤ e)) := by
  have hgeod : ∀ a b : Coord, 0 ≤ envW.geod a b := by
    intro a b
    simp only [envW]
    split_ifs <;> norm_num
  have hlen : ∀ a b l, gW.edgeLength a b = some l → 0 ≤ l := by
    intro a b l hl
    simp [gW] at hl
  rcases hr : OSMService_get_route envW gW 1 1 9 39 with _ | r
  · exfalso
    revert hr
    norm_num [OSMService_get_route, _route_to_external_destination,
      bestExitNode, envW, gW, ASTU_CENTER, CAMPUS_RADIUS, Prod.ext_iff]
    exact fun hc => Option.noConfusion hc
  · exact ⟨r, rfl, hybrid_flag_iff_and_segment_split envW gW 1 1 9 39 r
      hgeod hlen hr⟩

/-! ### C6: tiered resolution -/

/-- C6 (amended): `search_pois` always resolves to the category/keyword
fallback alone, whatever the similarity query does.  The embedding tier
is dead code: under the actual wiring the query itself raises
(`tier1_wired_outcome`), and even when rows come back the success path
raises `AttributeError` on the Pydantic-dropped `similarity` attribute
before it can return; and no lexical substring tier exists. -/
theorem search_pois_always_keyword_fallback (t1 : Tier1Outcome)
    (byCategory : String → ℕ → List SvcPOI) (query : String) (limit : ℕ) :
    search_pois t1 byCategory query limit =
      keyword_fallback byCategory query limit ∧
    search_pois tier1_wired_outcome byCategory query limit =
      keyword_fallback byCategory query limit := by
  constructor
  · match t1 with
    | .rows [] => rfl
    | .rows (_ :: _) => rfl
    | .failure _ => rfl
  · rfl

/-- A POI whose description mentions the query but whose name and
category do not. -/
def poiDescOnly : SvcPOI :=
  ⟨2, "Grand Hall", "building", 4, 5, some "the main auditorium of the campus"⟩

/-- C6 counterexample, against both halves of the claimed tiering: a
non-empty similarity-query row set is **not** returned alone (the
success path dies on the missing `similarity` attribute and the keyword
fallback answers instead), and a POI findable only by a description
substring is not found at all (no lexical tier) — while the claimed
three-tier first-success-wins resolution returns both. -/
theorem search_pois_tiers_counterexample :
    search_pois (.rows [⟨1, "Library", "building", 2, 3, none⟩])
      (fun _ _ => []) "library" 10 = [] ∧
    search_pois_spec (.rows [⟨1, "Library", "building", 2, 3, none⟩])
      (fun _ _ => []) [] "library" 10 =
      [⟨1, "Library", "building", 2, 3, none⟩] ∧
    search_pois (.rows []) (fun _ _ => []) "auditorium" 10 = [] ∧
    search_pois_spec (.rows []) (fun _ _ => []) [poiDescOnly] "auditorium" 10 =
      [poiDescOnly] := by
  refine ⟨by decide, by decide, by decide, by decide⟩

/-! ### C7: straight-line fallback -/

/-- C7 (amended): with no graph available the routing layer returns
`None` rather than raising, and the navigation node degrades to a
straight-line estimate: haversine distance, a compass direction derived
from the bearing, and a duration from the fixed **5.0 km/h** fallback
walking speed (urgency-adjusted, floored at 1 minute) — not from the
1.4 m/s speed used for in-graph routes. -/
theorem no_graph_fallback_straight_line (ops : MathOps)
    (start_poi end_poi : NavPOI) (urgency : String) :
    RoutingService_get_route none start_poi.latitude start_poi.longitude
      end_poi.latitude end_poi.longitude = none ∧
    (handle_navigation_core ops none start_poi end_poi urgency).error = none ∧
    (handle_navigation_core ops none start_poi end_poi urgency).geo_confidence =
      "high" ∧
    (let d := haversine_distance ops start_poi.latitude start_poi.longitude
        end_poi.latitude end_poi.longitude
     let direction := bearing_to_direction (calculate_bearing ops
        start_poi.latitude start_poi.longitude end_poi.latitude end_poi.longitude)
     let t := geo_time_with_floor urgency (fallback_time_minutes d)
     1 ≤ t ∧
     (handle_navigation_core ops none start_poi end_poi urgency).route_steps =
       (if d < 1/10 then
          [end_poi.name ++ " is very close to " ++ start_poi.name,
           "Walk " ++ toString (pyInt (d * 1000)) ++ "m " ++ direction]
        else
          ["Start at " ++ start_poi.name,
           "Head " ++ direction ++ " for " ++ toString (pyInt (d * 1000)) ++ "m",
           "Arrive at " ++ end_poi.name]) ∧
     (handle_navigation_core ops none start_poi end_poi urgency).route_summary =
       "Route from " ++ start_poi.name ++ " to " ++ end_poi.name ++ ": " ++
         fmt2f d ++ "km, ~" ++ toString t ++ " min walk" ∧
     (handle_navigation_core ops none start_poi end_poi urgency).route_coords =
       some [(start_poi.latitude, start_poi.longitude),
         (end_poi.latitude, end_poi.longitude)]) :=
  ⟨rfl, rfl, rfl, le_max_left 1 _, rfl, rfl, rfl⟩

/-- C7 counterexample: the fallback derives its duration from 5.0 km/h,
not from the 1.4 m/s (= 5.04 km/h) speed the in-graph computation uses:
on a 1 km straight line the two give 12 and 11 minutes respectively. -/
theorem fallback_speed_differs_from_osm_speed :
    fallback_time_minutes 1 = 12 ∧
    pyInt (osm_duration_minutes (1 * 1000)) = 11 ∧
    fallback_time_minutes 1 ≠ pyInt (osm_duration_minutes (1 * 1000)) := by
  refine ⟨?_, ?_, ?_⟩ <;>
    norm_num [fallback_time_minutes, osm_duration_minutes, pyInt]

/-! ### C8: response composer -/

/-- C8: the composer is a total function of the final context — it
returns a result for every intent even when all optional fields are
absent (the all-defaults state) — and the geodata fields
(start/end coordinates, route polyline, distance estimate) are passed
through from the context unchanged regardless of intent. -/
theorem composer_never_raises_and_passes_geodata (state : GraphState) :
    (response_composer_node state).start_coordinates = state.start_coordinates ∧
    (response_composer_node state).end_coordinates = state.end_coordinates ∧
    (response_composer_node state).route_coords = state.route_coords ∧
    (response_composer_node state).distance_estimate = state.distance_estimate ∧
    (response_composer_node {}).final_answer = "No information available" ∧
    (response_composer_node {}).sources_used = [] :=
  ⟨rfl, rfl, rfl, rfl, rfl, rfl⟩

/-! ### C10: nearby-service search -/

/-- C10 (amended): every returned service lies within the radius by the
exact great-circle distance, matched the search term case-insensitively
in its name, category or type, and carries the two-decimal rounded
distance; the list is sorted in non-decreasing order of that rounded
`distance_km` key (Python's stable sort keeps the input order inside a
rounding tie, so the exact distances need not be non-decreasing). -/
theorem nearby_services_filter_and_sort (ops : MathOps) (pois : List SvcPOI)
    (lat lon : ℚ) (service_type : String) (radius_km : ℚ) :
    (∀ s ∈ find_nearby_services ops pois lat lon service_type radius_km,
      haversine_distance ops lat lon s.latitude s.longitude ≤ radius_km ∧
      (pyContains (pyLower service_type) (pyLower s.name) ||
        pyContains (pyLower service_type) (pyLower s.category) ||
        pyContains (pyLower service_type) "") = true ∧
      s.distance_km =
        pyRound2 (haversine_distance ops lat lon s.latitude s.longitude)) ∧
    (find_nearby_services ops pois lat lon service_type radius_km).Pairwise
      nearbyLE := by
  constructor
  · intro s hs
    rw [find_nearby_services] at hs
    have hs' := (List.Perm.mem_iff (List.perm_insertionSort nearbyLE _)).mp hs
    rw [List.mem_filterMap] at hs'
    obtain ⟨poi, _, hpoi⟩ := hs'
    dsimp only at hpoi
    by_cases hrad : haversine_distance ops lat lon poi.latitude poi.longitude ≤
        radius_km
    · rw [if_pos hrad] at hpoi
      by_cases hmatch : nearby_match (pyLower service_type) poi = true
      · rw [if_pos hmatch] at hpoi
        obtain rfl := Option.some.inj hpoi
        exact ⟨hrad, by simpa [nearby_match] using hmatch, rfl⟩
      · rw [if_neg hmatch] at hpoi
        exact absurd hpoi (by simp)
    · rw [if_neg hrad] at hpoi
      exact absurd hpoi (by simp)
  · rw [find_nearby_services]
    exact List.sorted_insertionSort nearbyLE _

/-- Witness for C10 at a concrete input whose single result is easy to
evaluate. -/
theorem nearby_services_filter_witness :
    ∃ s ∈ find_nearby_services zeroOps [⟨1, "Cafe B", "cafe", 2, 3, none⟩]
        0 0 "cafe" 5,
      haversine_distance zeroOps 0 0 s.latitude s.longitude ≤ 5 ∧
      (pyContains (pyLower "cafe") (pyLower s.name) ||
        pyContains (pyLower "cafe") (pyLower s.category) ||
        pyContains (pyLower "cafe") "") = true := by
  have hmem : (⟨1, "Cafe B", "cafe", 2, 3, pyRound2 (haversine_distance zeroOps
        0 0 2 3), none⟩ : NearbyService) ∈
      find_nearby_services zeroOps [⟨1, "Cafe B", "cafe", 2, 3, none⟩]
        0 0 "cafe" 5 := by
    have hz : haversine_distance zeroOps 0 0 2 3 = 0 := by
      norm_num [haversine_distance, zeroOps, MathOps.radians]
    rw [find_nearby_services]
    simp only [List.filterMap]
    rw [hz]
    norm_num [nearby_match]
  have h := (nearby_services_filter_and_sort zeroOps
    [⟨1, "Cafe B", "cafe", 2, 3, none⟩] 0 0 "cafe" 5).1 _ hmem
  exact ⟨_, hmem, h.1, h.2.1⟩

/-- The exact rational value of the IEEE-754 double `math.pi`:
`884279719003555 / 2^48`. -/
def piD : ℚ := 884279719003555 / 281474976710656

/-- Half the latitude difference of `poiB` in radians:
`0.001016° · π/180/2 ≈ 8.866e-6`. -/
def rHalfB : ℚ := 127/125000 * piD / 180 / 2

/-- Half the latitude difference of `poiA` in radians (`≈ 8.395e-6`). -/
def rHalfA : ℚ := 481/500000 * piD / 180 / 2

/-- The backend at which the C10 counterexample is evaluated, agreeing
with the `math` module at every exercised argument.  Both POIs sit due
north of the query point on the same meridian, where the real-number
haversine collapses exactly — `asin(sqrt(sin²(x))) = x` for the tiny
positive `x` involved — so the true distance is exactly
`6371 · Δlat° · π/180`, which this backend reproduces with `π` taken as
the exact value of the double `math.pi`:
* `sin`/`asin` as the identity are exercised at `0` (exact) and at
  `x ≈ 8.4e-6, 8.9e-6` rad, where each deviates from the real function
  by only `x³/6 ≈ 1.2e-16` and their composition through the perfect
  square is exact;
* `sqrt` is exact on the two perfect squares it receives;
* `cos` is exercised at `0` (exact) and at `≈ 1.7e-5` rad (real value
  `1 − 1.5e-10`), where its output is multiplied by an exact `0`;
* `atan2` is not exercised by `haversine_distance`.
The resulting distances, `≈ 0.112974` km and `≈ 0.106970` km, match the
source's float computation far within the `≈ 0.0019` km slack to the
nearest `round(·, 2)` boundaries (0.115 and 0.105): both round to 0.11. -/
def meridianOps : MathOps where
  sin := fun q => q
  cos := fun _ => 1
  asin := fun q => q
  atan2 := fun _ _ => 0
  sqrt := fun q =>
    if q = rHalfB ^ 2 then rHalfB else if q = rHalfA ^ 2 then rHalfA else 0
  pi := piD

def poiB : SvcPOI := ⟨1, "Cafe B", "cafe", 127/125000, 0, none⟩

def poiA : SvcPOI := ⟨2, "Cafe A", "cafe", 481/500000, 0, none⟩

/-- C10 counterexample: the two POIs lie 0.112974 km and 0.106970 km
from the query point; both distances round to the same two-decimal
`distance_km` (0.11), the stable sort keeps them in input order, and the
exact great-circle distance of the first returned element exceeds that
of the second — the output is *not* sorted in non-decreasing order of
great-circle distance. -/
theorem nearby_sort_violates_exact_distance_order :
    find_nearby_services meridianOps [poiB, poiA] 0 0 "cafe" 5 =
      [⟨1, "Cafe B", "cafe", 127/125000, 0, 11/100, none⟩,
       ⟨2, "Cafe A", "cafe", 481/500000, 0, 11/100, none⟩] ∧
    haversine_distance meridianOps 0 0 (481/500000) 0 <
      haversine_distance meridianOps 0 0 (127/125000) 0 ∧
    ¬ (find_nearby_services meridianOps [poiB, poiA] 0 0 "cafe" 5).Pairwise
      (fun a b => haversine_distance meridianOps 0 0 a.latitude a.longitude ≤
        haversine_distance meridianOps 0 0 b.latitude b.longitude) := by
  have hB : haversine_distance meridianOps 0 0 (127/125000) 0 =
      6371 * (2 * rHalfB) := by
    norm_num [haversine_distance, meridianOps, MathOps.radians,
      rHalfB, rHalfA, piD]
  have hA : haversine_distance meridianOps 0 0 (481/500000) 0 =
      6371 * (2 * rHalfA) := by
    norm_num [haversine_distance, meridianOps, MathOps.radians,
      rHalfB, rHalfA, piD]
  have hmB : nearby_match (pyLower "cafe") poiB = true := by decide
  have hmA : nearby_match (pyLower "cafe") poiA = true := by decide
  have hAB : (6371 : ℚ) * (2 * rHalfA) < 6371 * (2 * rHalfB) := by
    norm_num [rHalfA, rHalfB, piD]
  have hout : find_nearby_services meridianOps [poiB, poiA] 0 0 "cafe" 5 =
      [⟨1, "Cafe B", "cafe", 127/125000, 0, 11/100, none⟩,
       ⟨2, "Cafe A", "cafe", 481/500000, 0, 11/100, none⟩] := by
    rw [find_nearby_services]
    simp only [List.filterMap_cons, List.filterMap_nil]
    dsimp only [poiB, poiA] at hmB hmA ⊢
    rw [hB, hA, hmB, hmA]
    have h1 : ((6371 : ℚ) * (2 * rHalfB) ≤ 5) = True := by
      norm_num [rHalfB, piD]
    have h2 : ((6371 : ℚ) * (2 * rHalfA) ≤ 5) = True := by
      norm_num [rHalfA, piD]
    have h3 : pyRound2 (6371 * (2 * rHalfB)) = 11/100 := by
      norm_num [pyRound2, pyRound, rHalfB, piD]
    have h4 : pyRound2 (6371 * (2 * rHalfA)) = 11/100 := by
      norm_num [pyRound2, pyRound, rHalfA, piD]
    simp only [h1, h2, if_true, h3, h4]
    simp only [List.insertionSort, List.orderedInsert, nearbyLE]
    norm_num
  refine ⟨hout, by rw [hA, hB]; exact hAB, ?_⟩
  rw [hout]
  intro hp
  have h1 := (List.pairwise_cons.mp hp).1 _ (List.mem_singleton.mpr rfl)
  dsimp only at h1
  rw [hB, hA] at h1
  exact absurd h1 (not_le.mpr hAB)
